import Mathlib

/-!
Shallow embedding of `qiskit_quantum_knn/qknn/quantum_algorithm.py`.

The module defines one abstract base class, `QuantumAlgorithm`, which stores
an optional execution context (`QuantumInstance`) and provides:
  * `__init__(quantum_instance)` - stores the (normalised) argument if present;
  * `run(quantum_instance=None, **kwargs)` - validates the presence of a
    context, normalises/stores the argument, then delegates to `_run`;
  * the `quantum_instance` property getter/setter (the setter wraps a raw
    backend in a `QuantumInstance`);
  * `set_backend(backend, **kwargs)` - wraps a backend and applies options;
  * the `backend` property getter/setter.

The two collaborator types `Backend` and `QuantumInstance` come from qiskit
and are external to the repository; they are modelled from the spec, which
assumes three operations on the execution context: construct-from-backend
(with default options), apply-configuration-options, and read-backend.

Python state is modelled by explicit state passing: each method takes the
object state and returns the updated state (and, for `run`, the outcome as
an `Except`: `.error` models the raised `ValueError`).  The stored field is
modelled as `Option QIorBackend` - a value that could in principle hold an
unwrapped raw backend, exactly as a dynamically typed attribute could - so
that the wrapping invariant is a provable fact rather than a typing triviality.
-/

namespace QKNN

/-- Modelled from the spec: an opaque handle to a real or simulated compute
target (`qiskit.providers.Backend`), identified here by a number. -/
structure Backend where
  id : Nat
deriving DecidableEq

/-- A run-time configuration: a mapping from option names to values
(values modelled as numbers; the spec's example option is `optA: 1`). -/
abbrev Config := List (String × Nat)

/-- Modelled from the spec: the default options a freshly constructed
execution context carries (qiskit's default shot count). -/
def default_config : Config := [("shots", 1024)]

/-- Modelled from the spec: the external execution-context collaborator
(`qiskit.utils.QuantumInstance`), bundling a compute backend with run-time
configuration. -/
structure QuantumInstance where
  backend : Backend
  config : Config
deriving DecidableEq

/-- Modelled from the spec: construct-from-backend, `QuantumInstance(backend)`:
wraps the backend with the default options. -/
def QuantumInstance.ofBackend (b : Backend) : QuantumInstance :=
  { backend := b, config := default_config }

/-- Modelled from the spec: apply-configuration-options,
`QuantumInstance.set_config(**kwargs)`: each supplied option overrides the
stored one of the same name (lookup takes the first match, so prepending
realises the override). -/
def QuantumInstance.set_config (qi : QuantumInstance) (kwargs : Config) :
    QuantumInstance :=
  { qi with config := kwargs ++ qi.config }

/-- Read an option from an execution context's configuration. -/
def QuantumInstance.getOption (qi : QuantumInstance) (k : String) : Option Nat :=
  qi.config.lookup k

/-- The dynamic type of a value that Python's
`Union[QuantumInstance, Backend]` annotation admits. -/
inductive QIorBackend where
  | qi (q : QuantumInstance)
  | backend (b : Backend)
deriving DecidableEq

/-- The backend an argument value designates: a full context's own backend,
or the raw backend itself. -/
def QIorBackend.backendOf : QIorBackend → Backend
  | .qi q => q.backend
  | .backend b => b

/-- The result mapping returned by a concrete algorithm's `_run`
(string keys to values). -/
abbrev Dict := List (String × Nat)

/-- The state of a `QuantumAlgorithm` object: its single attribute
`self._quantum_instance`.  The field is given the loose dynamic type so that
"a raw backend is never stored unwrapped" is a provable invariant. -/
structure QuantumAlgorithm where
  _quantum_instance : Option QIorBackend
deriving DecidableEq

namespace QuantumAlgorithm

/-- The `quantum_instance` property getter: `return self._quantum_instance`. -/
def quantum_instance (a : QuantumAlgorithm) : Option QIorBackend :=
  a._quantum_instance

/-- The `quantum_instance` property setter:
`if isinstance(quantum_instance, Backend): quantum_instance = QuantumInstance(quantum_instance)`
then `self._quantum_instance = quantum_instance`. -/
def quantum_instance_set (a : QuantumAlgorithm) (v : QIorBackend) :
    QuantumAlgorithm :=
  match v with
  | .backend b => { a with _quantum_instance := some (.qi (QuantumInstance.ofBackend b)) }
  | .qi q => { a with _quantum_instance := some (.qi q) }

/-- `QuantumAlgorithm.__init__(quantum_instance)`:
`self._quantum_instance = None; if quantum_instance: self.quantum_instance = quantum_instance`
(a `QuantumInstance` or `Backend` object is truthy, `None` is falsy). -/
def init (quantum_instance : Option QIorBackend) : QuantumAlgorithm :=
  let a : QuantumAlgorithm := { _quantum_instance := none }
  match quantum_instance with
  | some v => a.quantum_instance_set v
  | none => a

/-- `QuantumAlgorithm.set_backend(backend, **kwargs)`:
`self.quantum_instance = QuantumInstance(backend)` (through the property
setter) followed by `self.quantum_instance.set_config(**kwargs)`, which
mutates the just-stored context in place (the fallback match arm is
unreachable because the preceding assignment always stores a context). -/
def set_backend (a : QuantumAlgorithm) (backend : Backend) (kwargs : Config) :
    QuantumAlgorithm :=
  let a1 := a.quantum_instance_set (.qi (QuantumInstance.ofBackend backend))
  match a1._quantum_instance with
  | some (.qi q) => { a1 with _quantum_instance := some (.qi (q.set_config kwargs)) }
  | _ => a1

/-- The `backend` property getter: `return self.quantum_instance.backend`.
When the stored attribute is `None` (or, hypothetically, a raw backend,
which has no `backend` attribute) the Python expression raises an
`AttributeError`; that failure is modelled by `none`. -/
def backend_get (a : QuantumAlgorithm) : Option Backend :=
  match a.quantum_instance with
  | some (.qi q) => some q.backend
  | _ => none

/-- The `backend` property setter: `self.set_backend(backend)` with no
keyword options. -/
def backend_set (a : QuantumAlgorithm) (backend : Backend) : QuantumAlgorithm :=
  a.set_backend backend []

/-- The message of the `ValueError` raised by `run`. -/
def missing_context_msg : String :=
  "Quantum device or backend is needed since you are running quantum algorithm."

/-- `QuantumAlgorithm.run(quantum_instance=None, **kwargs)`.  The abstract
`self._run()` is the `compute` parameter, applied to the (possibly mutated)
object state.  The pair returned is the post-call object state together with
the outcome: `.error` models the raised `ValueError`, `.ok` the returned
result mapping. -/
def run (a : QuantumAlgorithm) (quantum_instance : Option QIorBackend)
    (kwargs : Config) (compute : QuantumAlgorithm → Dict) :
    QuantumAlgorithm × Except String Dict :=
  if quantum_instance.isNone && a.quantum_instance.isNone then
    (a, .error missing_context_msg)
  else
    let a1 : QuantumAlgorithm :=
      match quantum_instance with
      | some (.backend b) => a.set_backend b kwargs
      | some (.qi q) => a.quantum_instance_set (.qi q)
      | none => a
    (a1, .ok (compute a1))

/-- The stored attribute holds no unwrapped raw backend: it is absent or a
full execution context. -/
def contextWellFormed (a : QuantumAlgorithm) : Bool :=
  match a._quantum_instance with
  | some (.backend _) => false
  | _ => true

/-- The configuration of the stored execution context, when one is stored. -/
def storedConfig (a : QuantumAlgorithm) : Option Config :=
  match a._quantum_instance with
  | some (.qi q) => some q.config
  | _ => none

end QuantumAlgorithm

/-- One public mutation step on an algorithm object: the `quantum_instance`
setter, the `backend` setter, `set_backend` with options, or a `run` call
(with or without a context argument). -/
inductive Op where
  | setContext (v : QIorBackend)
  | backendSetter (b : Backend)
  | setBackendOp (b : Backend) (kwargs : Config)
  | runOp (arg : Option QIorBackend) (kwargs : Config)
deriving DecidableEq

/-- The object state after performing one operation.  The post-state of
`run` does not depend on the subclass computation routine (see
`run_state_independent_of_compute`), so a fixed routine is used here. -/
def Op.apply (a : QuantumAlgorithm) (op : Op) : QuantumAlgorithm :=
  match op with
  | .setContext v => a.quantum_instance_set v
  | .backendSetter b => a.backend_set b
  | .setBackendOp b kw => a.set_backend b kw
  | .runOp arg kw => (a.run arg kw (fun _ => [])).1

/-- The backend an operation installs in the stored context, when it
installs one (`run` with no argument installs none). -/
def Op.newBackend : Op → Option Backend
  | .setContext v => some v.backendOf
  | .backendSetter b => some b
  | .setBackendOp b _ => some b
  | .runOp (some v) _ => some v.backendOf
  | .runOp none _ => none

/-! ### Helper lemmas -/

/-- The object state after a `run` call does not depend on the subclass
computation routine. -/
theorem run_state_independent_of_compute (a : QuantumAlgorithm)
    (arg : Option QIorBackend) (kwargs : Config)
    (c c' : QuantumAlgorithm → Dict) :
    (a.run arg kwargs c).1 = (a.run arg kwargs c').1 := by
  unfold QuantumAlgorithm.run
  split <;> rfl

/-- A lookup that succeeds in the first list succeeds, with the same value,
in the concatenation: later (default) entries do not shadow earlier ones. -/
theorem lookup_append_of_some (l1 l2 : Config) (k : String) (v : Nat)
    (h : l1.lookup k = some v) : (l1 ++ l2).lookup k = some v := by
  induction l1 with
  | nil => simp [List.lookup] at h
  | cons p rest ih =>
    obtain ⟨k1, v1⟩ := p
    rw [List.cons_append]
    simp only [List.lookup] at h ⊢
    cases hk : (k == k1) with
    | true => rw [hk] at h; exact h
    | false => rw [hk] at h; exact ih h

/-- After `set_backend`, the stored attribute is the fresh context wrapping
the backend with the options applied. -/
theorem set_backend_stored (a : QuantumAlgorithm) (b : Backend) (kw : Config) :
    (a.set_backend b kw)._quantum_instance =
      some (.qi ((QuantumInstance.ofBackend b).set_config kw)) := rfl

/-- An operation that installs a backend makes the `backend` getter return
exactly that backend, whatever the previous state was. -/
theorem apply_newBackend (a : QuantumAlgorithm) (op : Op) (b : Backend)
    (h : op.newBackend = some b) : (Op.apply a op).backend_get = some b := by
  cases op with
  | setContext v =>
    cases v with
    | qi q =>
      simp only [Op.newBackend, QIorBackend.backendOf, Option.some.injEq] at h
      subst h; rfl
    | backend b' =>
      simp only [Op.newBackend, QIorBackend.backendOf, Option.some.injEq] at h
      subst h; rfl
  | backendSetter b' =>
    simp only [Op.newBackend, Option.some.injEq] at h
    subst h; rfl
  | setBackendOp b' kw =>
    simp only [Op.newBackend, Option.some.injEq] at h
    subst h; rfl
  | runOp arg kw =>
    cases arg with
    | none => simp [Op.newBackend] at h
    | some v =>
      cases v with
      | qi q =>
        simp only [Op.newBackend, QIorBackend.backendOf, Option.some.injEq] at h
        subst h; rfl
      | backend b' =>
        simp only [Op.newBackend, QIorBackend.backendOf, Option.some.injEq] at h
        subst h; rfl

/-- The constructor establishes the wrapping invariant. -/
theorem init_wellFormed (v : Option QIorBackend) :
    (QuantumAlgorithm.init v).contextWellFormed = true := by
  cases v with
  | none => rfl
  | some w => cases w <;> rfl

/-- Every operation preserves the wrapping invariant. -/
theorem apply_wellFormed (a : QuantumAlgorithm) (op : Op)
    (h : a.contextWellFormed = true) :
    (Op.apply a op).contextWellFormed = true := by
  obtain ⟨s⟩ := a
  cases op with
  | setContext v => cases v <;> rfl
  | backendSetter b => rfl
  | setBackendOp b kw => rfl
  | runOp arg kw =>
    cases arg with
    | none => cases s with
      | none => rfl
      | some w => exact h
    | some v => cases v <;> rfl

/-- The wrapping invariant is preserved along any sequence of operations. -/
theorem foldl_wellFormed (ops : List Op) (a : QuantumAlgorithm)
    (h : a.contextWellFormed = true) :
    (ops.foldl Op.apply a).contextWellFormed = true := by
  induction ops generalizing a with
  | nil => exact h
  | cons op rest ih => exact ih (Op.apply a op) (apply_wellFormed a op h)

/-! ### Claim theorems -/

/-- Claim C1: for every algorithm instance whose stored execution context is
absent, calling `run` with no context argument raises the missing-context
`ValueError` before any computation is attempted (the outcome is the error,
independent of the computation routine), and the stored context is still
absent afterwards: the returned state is the unchanged input state. -/
theorem run_no_context_errors (a : QuantumAlgorithm) (kwargs : Config)
    (compute : QuantumAlgorithm → Dict) (h : a._quantum_instance = none) :
    a.run none kwargs compute =
      (a, .error QuantumAlgorithm.missing_context_msg) := by
  simp [QuantumAlgorithm.run, QuantumAlgorithm.quantum_instance, h]

/-- Witness for C1 at the concrete instance constructed without a context. -/
theorem run_no_context_errors_witness :
    (QuantumAlgorithm.init none)._quantum_instance = none ∧
    (QuantumAlgorithm.init none).run none [] (fun _ => []) =
      (QuantumAlgorithm.init none, .error QuantumAlgorithm.missing_context_msg) :=
  ⟨rfl, run_no_context_errors (QuantumAlgorithm.init none) [] (fun _ => []) rfl⟩

/-- Claim C2: whenever `run` delegates to the subclass computation routine
(the outcome is `.ok`), the stored context of the state handed to the
routine is non-null, and the returned mapping is the routine's output on
that state. -/
theorem run_delegates_with_context (a a1 : QuantumAlgorithm)
    (arg : Option QIorBackend) (kwargs : Config)
    (compute : QuantumAlgorithm → Dict) (r : Dict)
    (h : a.run arg kwargs compute = (a1, .ok r)) :
    a1._quantum_instance.isSome = true ∧ r = compute a1 := by
  cases arg with
  | none =>
    cases hs : a._quantum_instance with
    | none =>
      simp [QuantumAlgorithm.run, QuantumAlgorithm.quantum_instance, hs] at h
    | some w =>
      simp [QuantumAlgorithm.run, QuantumAlgorithm.quantum_instance, hs] at h
      obtain ⟨h1, h2⟩ := h
      subst h1
      exact ⟨by simp [hs], h2.symm⟩
  | some v =>
    cases v with
    | qi q =>
      simp [QuantumAlgorithm.run, QuantumAlgorithm.quantum_instance,
        QuantumAlgorithm.quantum_instance_set] at h
      obtain ⟨h1, h2⟩ := h
      subst h1
      exact ⟨rfl, h2.symm⟩
    | backend b =>
      simp [QuantumAlgorithm.run, QuantumAlgorithm.quantum_instance,
        QuantumAlgorithm.set_backend, QuantumAlgorithm.quantum_instance_set] at h
      obtain ⟨h1, h2⟩ := h
      subst h1
      exact ⟨rfl, h2.symm⟩

/-- Witness for C2: a concrete successful `run` hands the computation
routine a state whose stored context is present. -/
theorem run_delegates_with_context_witness :
    (QuantumAlgorithm.init
        (some (.qi ⟨⟨2⟩, []⟩)))._quantum_instance.isSome = true ∧
    ([("res", 0)] : Dict) =
      (fun _ : QuantumAlgorithm => ([("res", 0)] : Dict))
        (QuantumAlgorithm.init (some (.qi ⟨⟨2⟩, []⟩))) :=
  run_delegates_with_context
    (QuantumAlgorithm.init (some (.qi ⟨⟨2⟩, []⟩)))
    (QuantumAlgorithm.init (some (.qi ⟨⟨2⟩, []⟩)))
    none [] (fun _ => [("res", 0)]) [("res", 0)] rfl

/-- Claim C3: calling `run` with a full execution context `q` replaces the
stored context with exactly `q`, and the options mapping passed alongside is
ignored: the post-call state is the same for any two option mappings. -/
theorem run_with_context_stores_exact (a : QuantumAlgorithm)
    (q : QuantumInstance) (kwargs kwargs' : Config)
    (compute : QuantumAlgorithm → Dict) :
    ((a.run (some (.qi q)) kwargs compute).1)._quantum_instance =
        some (.qi q) ∧
    (a.run (some (.qi q)) kwargs compute).1 =
        (a.run (some (.qi q)) kwargs' compute).1 := by
  constructor <;>
    simp [QuantumAlgorithm.run, QuantumAlgorithm.quantum_instance,
      QuantumAlgorithm.quantum_instance_set]

/-- Counterexample to claim C4: on an instance whose stored context carries
the configuration `optA = 1`, the no-options backend setter does not leave
the other configuration fields unchanged - the stored configuration after
the call differs from the one before it (it is reset to the defaults). -/
theorem backend_setter_discards_config :
    QuantumAlgorithm.storedConfig
        ((QuantumAlgorithm.mk
          (some (.qi ⟨⟨0⟩, [("optA", 1)]⟩))).backend_set ⟨1⟩) ≠
      QuantumAlgorithm.storedConfig
        (QuantumAlgorithm.mk (some (.qi ⟨⟨0⟩, [("optA", 1)]⟩))) := by
  decide

/-- Claim C4 as amended: the no-options backend setter replaces the stored
context with a fresh execution context wrapping the new backend with the
default options (any prior configuration is discarded); afterwards the
backend getter returns the new backend. -/
theorem backend_setter_fresh_default_context (a : QuantumAlgorithm)
    (b : Backend) :
    (a.backend_set b)._quantum_instance =
        some (.qi (QuantumInstance.ofBackend b)) ∧
    (a.backend_set b).backend_get = some b := by
  constructor <;>
    simp [QuantumAlgorithm.backend_set, QuantumAlgorithm.set_backend,
      QuantumAlgorithm.quantum_instance_set, QuantumAlgorithm.backend_get,
      QuantumAlgorithm.quantum_instance, QuantumInstance.set_config,
      QuantumInstance.ofBackend]

/-- Claim C5: calling `run` with a raw backend `b` and an options mapping
stores the wrap of `b` as a new execution context with the options applied:
afterwards the stored context's backend equals `b`, and every option of the
supplied mapping is readable from the stored context. -/
theorem run_with_backend_applies_options (a : QuantumAlgorithm) (b : Backend)
    (kwargs : Config) (compute : QuantumAlgorithm → Dict) (k : String)
    (v : Nat) (h : kwargs.lookup k = some v) :
    ((a.run (some (.backend b)) kwargs compute).1)._quantum_instance =
        some (.qi ((QuantumInstance.ofBackend b).set_config kwargs)) ∧
    ((a.run (some (.backend b)) kwargs compute).1).backend_get = some b ∧
    ((QuantumInstance.ofBackend b).set_config kwargs).getOption k = some v := by
  refine ⟨?_, ?_, ?_⟩
  · simp [QuantumAlgorithm.run, QuantumAlgorithm.quantum_instance,
      QuantumAlgorithm.set_backend, QuantumAlgorithm.quantum_instance_set]
  · simp [QuantumAlgorithm.run, QuantumAlgorithm.quantum_instance,
      QuantumAlgorithm.set_backend, QuantumAlgorithm.quantum_instance_set,
      QuantumAlgorithm.backend_get, QuantumInstance.set_config,
      QuantumInstance.ofBackend]
  · exact lookup_append_of_some kwargs default_config k v h

/-- Witness for C5: running with backend 7 and options `optA = 1` leaves a
stored context whose `optA` option reads back as 1. -/
theorem run_with_backend_applies_options_witness :
    ((QuantumInstance.ofBackend ⟨7⟩).set_config
        [("optA", 1)]).getOption "optA" = some 1 :=
  (run_with_backend_applies_options (QuantumAlgorithm.init none) ⟨7⟩
    [("optA", 1)] (fun _ => []) "optA" 1 (by decide)).2.2

/-- Claim C6: the context setter given a raw backend `b` stores the full
execution context wrapping `b` with the default options; afterwards the
backend getter returns `b`. -/
theorem context_setter_wraps_backend (a : QuantumAlgorithm) (b : Backend) :
    (a.quantum_instance_set (.backend b))._quantum_instance =
        some (.qi (QuantumInstance.ofBackend b)) ∧
    (a.quantum_instance_set (.backend b)).backend_get = some b := by
  exact ⟨rfl, rfl⟩

/-- Claim C7: an instance constructed with a context (or backend) supplied,
run with no argument, does not error: the call returns unchanged state and
the `.ok` result mapping produced by the subclass computation routine. -/
theorem run_after_construction_succeeds (v : QIorBackend) (kwargs : Config)
    (compute : QuantumAlgorithm → Dict) :
    (QuantumAlgorithm.init (some v)).run none kwargs compute =
      (QuantumAlgorithm.init (some v),
        .ok (compute (QuantumAlgorithm.init (some v)))) := by
  cases v <;>
    simp [QuantumAlgorithm.init, QuantumAlgorithm.quantum_instance_set,
      QuantumAlgorithm.run, QuantumAlgorithm.quantum_instance]

/-- Claim C8: after any sequence of backend/context mutations, the backend
getter returns the backend installed by the most recent mutation (no stale
caching): any operation that installs a backend determines the getter's
answer, whatever came before. -/
theorem backend_getter_tracks_last_mutation (a : QuantumAlgorithm)
    (ops : List Op) (op : Op) (b : Backend) (h : op.newBackend = some b) :
    ((ops ++ [op]).foldl Op.apply a).backend_get = some b := by
  rw [List.foldl_append]
  exact apply_newBackend (ops.foldl Op.apply a) op b h

/-- Witness for C8: after setting a context wrapping backend 3 and then the
backend setter with backend 9, the getter reads backend 9. -/
theorem backend_getter_tracks_last_mutation_witness :
    (([Op.setContext (.backend ⟨3⟩)] ++
        [Op.backendSetter ⟨9⟩]).foldl Op.apply
      (QuantumAlgorithm.init none)).backend_get = some ⟨9⟩ :=
  backend_getter_tracks_last_mutation (QuantumAlgorithm.init none)
    [Op.setContext (.backend ⟨3⟩)] (Op.backendSetter ⟨9⟩) ⟨9⟩ rfl

/-- Claim C9: starting from any constructor argument and applying any
sequence of public operations, the stored attribute never holds an
unwrapped raw backend - it is always absent or a full execution context. -/
theorem context_always_wrapped (v : Option QIorBackend) (ops : List Op) :
    (ops.foldl Op.apply (QuantumAlgorithm.init v)).contextWellFormed = true :=
  foldl_wellFormed ops (QuantumAlgorithm.init v) (init_wellFormed v)

/-- Claim C10: on an instance whose stored context is absent, the backend
getter fails - the dereference of the absent context is modelled by the
getter producing `none` rather than any backend. -/
theorem backend_getter_fails_without_context (a : QuantumAlgorithm)
    (h : a._quantum_instance = none) : a.backend_get = none := by
  simp [QuantumAlgorithm.backend_get, QuantumAlgorithm.quantum_instance, h]

/-- Witness for C10 at the instance constructed without a context. -/
theorem backend_getter_fails_without_context_witness :
    (QuantumAlgorithm.init none).backend_get = none :=
  backend_getter_fails_without_context (QuantumAlgorithm.init none) rfl

end QKNN
